import Mathlib

/-!
Shallow embedding of the py9kw captcha-client library (src/py9kw.py) and
verification of its specification claims.

Modelling conventions:
- Parsed JSON responses from the remote service are the oracle inputs: a
  single call takes a `Response`; the poll loop takes a stream
  `Nat -> Response` giving the response of the n-th fetch.
- Python dynamic values that can be a JSON number, boolean, string or null
  are modelled by `JVal`; Python `==` between such values and integers is
  `JVal.pyEq` / `JVal.pyEqInt` (booleans compare numerically, strings and
  null never equal an integer).
- Python exceptions that can escape a function (ValueError from int() on a
  non-numeric credits string, TypeError from a percent-d format of a
  non-numeric value in a verbose print) are modelled by an explicit
  `raised` flag or an `Option` result; print statements are otherwise
  ignored since they do not affect state or results.
- Machine integers are `Int` (Python integers are unbounded, so there is
  no overflow to model).
-/

/-- A parsed JSON scalar as the Python code can observe it. -/
inductive JVal where
  | jnull
  | jbool (b : Bool)
  | jint (n : Int)
  | jstr (s : String)
deriving DecidableEq

/-- Python equality between two dynamic values: booleans compare as the
integers 0 and 1; a string or None never equals a number. -/
def JVal.pyEq : JVal → JVal → Bool
  | JVal.jint a, JVal.jint b => a == b
  | JVal.jint a, JVal.jbool b => a == (if b then 1 else 0)
  | JVal.jbool a, JVal.jint b => (if a then (1 : Int) else 0) == b
  | JVal.jbool a, JVal.jbool b => a == b
  | JVal.jstr a, JVal.jstr b => a == b
  | JVal.jnull, JVal.jnull => true
  | _, _ => false

/-- Python equality between a dynamic value and an integer literal. -/
def JVal.pyEqInt (v : JVal) (m : Int) : Bool :=
  v.pyEq (JVal.jint m)

/-- Whether a value can be formatted by a percent-d conversion without a
TypeError: integers and booleans can, strings and None cannot. -/
def JVal.percentDOk : JVal → Bool
  | JVal.jint _ => true
  | JVal.jbool _ => true
  | _ => false

/-- Python int() applied to a string: optional surrounding whitespace,
optional sign, at least one ASCII digit; anything else raises ValueError,
modelled as none. -/
def pyIntOfString (s : String) : Option Int :=
  let t := s.trim
  let signed : Int × List Char :=
    match t.toList with
    | '-' :: rest => (-1, rest)
    | '+' :: rest => (1, rest)
    | cs => (1, cs)
  if signed.2.isEmpty || !signed.2.all Char.isDigit then none
  else some (signed.1 * signed.2.foldl (fun a c => a * 10 + ((c.toNat : Int) - 48)) 0)

/-- The fields of a parsed JSON response that py9kw reads; a field that the
response does not carry is none. The answer field is the solved text and is
modelled as a string when present. -/
structure Response where
  error : Option String := none
  answer : Option String := none
  nodata : Option JVal := none
  credits : Option JVal := none
  try_again : Option JVal := none
deriving DecidableEq

/-- The mutable instance state of class Py9kw that the verified operations
read or write. Proxy, opener and extra-upload fields belong to the upload
path, which is outside the verified claims, and are omitted. The credits
field is a dynamic value because getcredits stores the response value
verbatim. -/
structure Py9kwState where
  verbose : Bool
  prio : Int
  maxtimeout : Int
  apikey : String
  captchaid : Int
  credits : JVal
  waitSecondsPerLoop : Int
  errorcode : Int
  sleepOutputFrequencySeconds : Int
  errormsg : Option String
  response : Response
deriving DecidableEq

/-- Values according to website 2020-01-25 (module constants). -/
def PARAM_MAX_PRIO : Int := 20

def PARAM_DEFAULT_PRIO : Int := -1

def PARAM_MIN_MAXTIMEOUT : Int := 60

def PARAM_MAX_MAXTIMEOUT : Int := 3999

def PARAM_MIN_CREDITS_TO_SOLVE_ONE_CAPTCHA : Int := 10

/-- State built by the constructor, before any network interaction. -/
def initState (apikey : String) : Py9kwState where
  verbose := false
  prio := PARAM_DEFAULT_PRIO
  maxtimeout := PARAM_MIN_MAXTIMEOUT
  apikey := apikey
  captchaid := -1
  credits := JVal.jint (-1)
  waitSecondsPerLoop := 10
  errorcode := -1
  sleepOutputFrequencySeconds := 3
  errormsg := none
  response := {}

/-- The error parser of checkError: the regex matches a 4-digit code at the
start of the string, a space, and a non-empty remainder of the first line
(the dot of the regex does not cross a newline). -/
def parseErrorString (s : String) : Option (Nat × String) :=
  match s.toList with
  | c1 :: c2 :: c3 :: c4 :: c5 :: rest =>
    if c1.isDigit && c2.isDigit && c3.isDigit && c4.isDigit && c5 == ' ' then
      let msgChars := rest.takeWhile (fun c => c != '\n')
      if msgChars.isEmpty then none
      else some ((c1.toNat - 48) * 1000 + (c2.toNat - 48) * 100 +
                 (c3.toNat - 48) * 10 + (c4.toNat - 48), String.mk msgChars)
    else none
  | _ => none

/-- Error code that checkError stores for a response: -1 when the response
carries no error field, the parsed 4-digit code when the error string
parses, and the internal fallback 666 when it does not. -/
def checkErrorCode (resp : Response) : Int :=
  match resp.error with
  | none => -1
  | some s =>
    match parseErrorString s with
    | some p => (p.1 : Int)
    | none => 666

/-- Error message that checkError stores for a response. -/
def checkErrorMsg (resp : Response) : Option String :=
  match resp.error with
  | none => none
  | some s =>
    match parseErrorString s with
    | some p => some p.2
    | none => some "Error while parsing error number and message"

/-- checkError: parses the error field of a response into the errorcode and
errormsg fields, resetting both to the no-error sentinel when the response
carries no error field. -/
def checkError (st : Py9kwState) (resp : Response) : Py9kwState :=
  { st with errorcode := checkErrorCode resp, errormsg := checkErrorMsg resp }

/-- getPrio: the configured priority, silently clamped to PARAM_MAX_PRIO. -/
def getPrio (st : Py9kwState) : Int :=
  if st.prio > PARAM_MAX_PRIO then PARAM_MAX_PRIO else st.prio

/-- getCaptchaCost: credits needed to solve one captcha with the current
settings. -/
def getCaptchaCost (st : Py9kwState) : Int :=
  let captcha_cost := PARAM_MIN_CREDITS_TO_SOLVE_ONE_CAPTCHA
  if getPrio st > 0 then captcha_cost + getPrio st else captcha_cost

/-- getTimeout: the configured timeout clamped into
[PARAM_MIN_MAXTIMEOUT, PARAM_MAX_MAXTIMEOUT]. -/
def getTimeout (st : Py9kwState) : Int :=
  if st.maxtimeout < PARAM_MIN_MAXTIMEOUT then PARAM_MIN_MAXTIMEOUT
  else if st.maxtimeout > PARAM_MAX_MAXTIMEOUT then PARAM_MAX_MAXTIMEOUT
  else st.maxtimeout

/-- getWaitSecondsPerLoop: the configured per-iteration sleep, falling back
to 10 when the configured value is not positive. The source returns a
Python int; since the result is always positive it is modelled as a Nat
for use in the loop arithmetic. -/
def getWaitSecondsPerLoop (st : Py9kwState) : Nat :=
  if st.waitSecondsPerLoop > 0 then st.waitSecondsPerLoop.toNat else 10

/-- A response whose credits field, when it is a string that the code will
convert, is numeric, so the int() conversion in getresult cannot raise. -/
def wfCredits (resp : Response) : Bool :=
  match resp.credits.getD (JVal.jint (-1)) with
  | JVal.jstr s => (pyIntOfString s).isSome
  | _ => true

/-- The credits bookkeeping of getresult (source lines 353 to 361): when the
response carries a credits value other than -1, a string value is converted
with int() (ValueError modelled as none), and then, only when verbose is
set and the value differs from the cached one, the verbose print formats
both values with percent-d (TypeError modelled as none) and the cached
credits field is updated. -/
def updateCredits (st : Py9kwState) (thiscredits : JVal) : Option Py9kwState :=
  if thiscredits.pyEqInt (-1) then some st
  else
    let conv : Option JVal :=
      match thiscredits with
      | JVal.jstr s => (pyIntOfString s).map JVal.jint
      | v => some v
    match conv with
    | none => none
    | some c =>
      if st.verbose && !(c.pyEq st.credits) then
        if st.credits.percentDOk && c.percentDOk then some { st with credits := c }
        else none
      else some st

/-- Result of one getresult call: whether an exception escaped, the
returned answer (none both for a Python None return and when raised), and
the state after the call (mutations made before a raise persist). -/
structure GetResultOutcome where
  raised : Bool
  answer : Option String
  st : Py9kwState
deriving DecidableEq

/-- getresult: one result fetch for the current captchaid, taking the parsed
response of that fetch as input. Stores the response, runs checkError, does
the credits bookkeeping, then classifies: nodata equal 1 is the transient
602 NO_ANSWER_YET; the literal answer ERROR NO USER is the fatal 600; any
recorded structured error yields no answer; otherwise the answer field is
returned as is (also when it is None or the empty string). -/
def getresult (st0 : Py9kwState) (resp : Response) : GetResultOutcome :=
  let st := checkError { st0 with response := resp } resp
  match updateCredits st (resp.credits.getD (JVal.jint (-1))) with
  | none => ⟨true, none, st⟩
  | some st1 =>
    if (resp.nodata.getD (JVal.jint (-1))).pyEqInt 1 then
      ⟨false, none, { st1 with errorcode := 602, errormsg := some "NO_ANSWER_YET" }⟩
    else if resp.answer = some "ERROR NO USER" then
      ⟨false, none, { st1 with errorcode := 600, errormsg := some "ERROR_NO_USER" }⟩
    else if st1.errorcode > -1 then
      ⟨false, none, st1⟩
    else
      ⟨false, resp.answer, st1⟩

/-- Pure characterization of the answer that one getresult call returns for
a response (valid whenever no exception is raised); the branch structure
mirrors getresult. -/
def fetchedAnswer (resp : Response) : Option String :=
  if (resp.nodata.getD (JVal.jint (-1))).pyEqInt 1 then none
  else if resp.answer = some "ERROR NO USER" then none
  else if checkErrorCode resp > -1 then none
  else resp.answer

/-- Pure characterization of the errorcode field after one getresult call
on a response. -/
def postErrorcode (resp : Response) : Int :=
  if (resp.nodata.getD (JVal.jint (-1))).pyEqInt 1 then 602
  else if resp.answer = some "ERROR NO USER" then 600
  else checkErrorCode resp

/-- Pure characterization of the errormsg field after one getresult call on
a response. -/
def postErrormsg (resp : Response) : Option String :=
  if (resp.nodata.getD (JVal.jint (-1))).pyEqInt 1 then some "NO_ANSWER_YET"
  else if resp.answer = some "ERROR NO USER" then some "ERROR_NO_USER"
  else checkErrorMsg resp

/-- The state after one non-raising, non-verbose getresult call on a
response. -/
def stateUpdate (st : Py9kwState) (resp : Response) : Py9kwState :=
  { st with response := resp, errorcode := postErrorcode resp,
            errormsg := postErrormsg resp }

/-- Result of sleepAndGetResult: whether an exception escaped, the returned
answer, the final state, and counters for the network fetches issued, the
seconds slept, and the sleep calls performed. -/
structure PollOutcome where
  raised : Bool
  answer : Option String
  st : Py9kwState
  fetchCount : Nat
  totalSlept : Nat
  sleepCount : Nat
deriving DecidableEq

/-- The state mutation performed after the while loop of sleepAndGetResult
ends (by budget exhaustion or by break): errorcode 601,
ERROR_INTERNAL_TIMEOUT. -/
def timeoutState (st : Py9kwState) : Py9kwState :=
  { st with errorcode := 601, errormsg := some "ERROR_INTERNAL_TIMEOUT" }

/-- The while loop of sleepAndGetResult. Arguments after the response
stream and the per-iteration wait: fuel, state, waitSecondsLeft,
fetch index, total seconds waited, sleep count. The fuel only bounds the
recursion; sleepAndGetResult passes fuel equal to the initial budget, which
suffices because every iteration that continues consumes at least one
second of budget (the per-iteration wait is positive). Each iteration
fetches once via getresult, then: a non-None result is returned at once; a
recorded error other than 602 breaks; a try-again hint comparing equal to
0 (with a missing hint defaulting to False) breaks; otherwise the loop
sleeps min(waitSecondsPerLoop, waitSecondsLeft) and deducts it from the
budget. The console-output throttling fields of the source affect printing
only and are not modelled. -/
def pollLoop (fetches : Nat → Response) (waitSecondsPerLoop : Nat) :
    Nat → Py9kwState → Nat → Nat → Nat → Nat → PollOutcome
  | 0, st, _, i, t, s => ⟨false, none, timeoutState st, i, t, s⟩
  | fuel + 1, st, waitSecondsLeft, i, t, s =>
    if waitSecondsLeft > 0 then
      let r := getresult st (fetches i)
      if r.raised then ⟨true, none, r.st, i + 1, t, s⟩
      else
        let serverSaysTryAgain := r.st.response.try_again.getD (JVal.jbool false)
        match r.answer with
        | some a => ⟨false, some a, r.st, i + 1, t, s⟩
        | none =>
          if r.st.errorcode > -1 ∧ r.st.errorcode ≠ 602 then
            ⟨false, none, timeoutState r.st, i + 1, t, s⟩
          else if serverSaysTryAgain.pyEqInt 0 then
            ⟨false, none, timeoutState r.st, i + 1, t, s⟩
          else
            let thisSecondsWait := min waitSecondsPerLoop waitSecondsLeft
            pollLoop fetches waitSecondsPerLoop fuel r.st
              (waitSecondsLeft - thisSecondsWait) (i + 1)
              (t + thisSecondsWait) (s + 1)
    else ⟨false, none, timeoutState st, i, t, s⟩

/-- sleepAndGetResult: waits until the captcha is solved or the timeout
budget expires. The captchaid sentinel check at entry only prints a
warning in the source and does not change control flow, so it does not
appear here; polling proceeds regardless. -/
def sleepAndGetResult (st : Py9kwState) (fetches : Nat → Response) : PollOutcome :=
  let budget := (getTimeout st).toNat
  pollLoop fetches (getWaitSecondsPerLoop st) budget st budget 0 0 0

/-- Observable outcome of a poll run as the specification describes it:
the returned answer, how many fetches were issued, and how many seconds
were slept. -/
structure SpecOutcome where
  answer : Option String
  fetchCount : Nat
  totalSlept : Nat
deriving DecidableEq

/-- Projection of a loop outcome to the observables the specification
talks about. -/
def PollOutcome.spec (o : PollOutcome) : SpecOutcome :=
  ⟨o.answer, o.fetchCount, o.totalSlept⟩

/-- Modelled from the wording of the specification: whether a response
makes the loop stop with GAVE_UP_SERVER_REFUSED. With missingHintRefuses
false this is the literal reading of the claim (only a try-again hint that
is present and explicitly false or zero refuses); with missingHintRefuses
true a missing hint also refuses, matching the defaulting behavior of the
code. -/
def specRefused (missingHintRefuses : Bool) (resp : Response) : Bool :=
  match resp.try_again with
  | some v => v.pyEqInt 0
  | none => missingHintRefuses

/-- Modelled from the wording of the specification (section 4.2 and the
poll-loop termination property): scan the fetch results in order with the
remaining budget counting down; stop on the first solved answer, else on
the first structured error other than 602, else on the first refusal by
the try-again hint, else sleep min(interval, remaining) and continue;
when the budget is exhausted report no answer. Arguments: fuel, remaining
budget, fetch index, slept so far. -/
def specPoll (missingHintRefuses : Bool) (fetches : Nat → Response) (w : Nat) :
    Nat → Nat → Nat → Nat → SpecOutcome
  | 0, _, i, t => ⟨none, i, t⟩
  | fuel + 1, left, i, t =>
    if left > 0 then
      match fetchedAnswer (fetches i) with
      | some a => ⟨some a, i + 1, t⟩
      | none =>
        if postErrorcode (fetches i) > -1 ∧ postErrorcode (fetches i) ≠ 602 then
          ⟨none, i + 1, t⟩
        else if specRefused missingHintRefuses (fetches i) then
          ⟨none, i + 1, t⟩
        else
          specPoll missingHintRefuses fetches w fuel (left - min w left) (i + 1)
            (t + min w left)
    else ⟨none, i, t⟩

/-- Result of one sendCaptchaFeedback call: whether the network request was
issued, the boolean the function returns, whether an exception escaped
(never, since the only raising calls sit inside the try block), and the
state after the call. The network oracle is none when the request or the
response parse raises. -/
structure FeedbackOutcome where
  networkCalled : Bool
  result : Bool
  raised : Bool
  st : Py9kwState
deriving DecidableEq

/-- sendCaptchaFeedback: refuses without a network call unless captchaid is
positive (the source also tests for None, subsumed here since the field is
always an integer); a transport or parse exception is caught and yields
False; otherwise checkError records any response error and True is
returned. -/
def sendCaptchaFeedback (st : Py9kwState) (captchaFeedbackNumber : Int)
    (net : Option Response) : FeedbackOutcome :=
  if st.captchaid ≤ 0 then ⟨false, false, false, st⟩
  else
    match net with
    | none => ⟨true, false, false, st⟩
    | some resp => ⟨true, true, false, checkError st resp⟩

/-- setCaptchaCorrect: positive or negative feedback. -/
def setCaptchaCorrect (st : Py9kwState) (iscorrect : Bool)
    (net : Option Response) : FeedbackOutcome :=
  if iscorrect then sendCaptchaFeedback st 1 net else sendCaptchaFeedback st 2 net

/-- abortCaptcha: abort feedback. -/
def abortCaptcha (st : Py9kwState) (net : Option Response) : FeedbackOutcome :=
  sendCaptchaFeedback st 3 net

/-- Result of one getcredits call: whether an exception escaped (possible
only from the verbose print formatting a non-numeric credits value), the
returned value, and the state after the call. -/
structure CreditsOutcome where
  raised : Bool
  retval : JVal
  st : Py9kwState
deriving DecidableEq

/-- getcredits: runs checkError on the response; on a recorded error
returns -1 without touching the cached credits; otherwise stores the
response credits value verbatim in the credits field and returns it (the
verbose branch formats the value with percent-d and divides it, raising on
a string or null value, modelled by the raised flag). -/
def getcredits (st0 : Py9kwState) (resp : Response) : CreditsOutcome :=
  let st := checkError st0 resp
  if st.errorcode > -1 then ⟨false, JVal.jint (-1), st⟩
  else
    let usercredits := resp.credits.getD (JVal.jint (-1))
    if st.verbose && !usercredits.percentDOk then ⟨true, JVal.jint (-1), st⟩
    else ⟨false, usercredits, { st with credits := usercredits }⟩

/-- A response classifying as the transient no-answer-yet case with a
truthy try-again hint: well-formed credits, no answer yielded, errorcode
602 after the fetch, and a try-again hint that does not compare equal
to 0. -/
def transientNoAnswer (resp : Response) : Bool :=
  wfCredits resp && (fetchedAnswer resp).isNone && (postErrorcode resp == 602) &&
    !((resp.try_again.getD (JVal.jbool false)).pyEqInt 0)

section ProjectionLemmas

variable (st : Py9kwState) (resp : Response)

@[simp] lemma checkError_errorcode : (checkError st resp).errorcode = checkErrorCode resp := rfl

@[simp] lemma checkError_errormsg : (checkError st resp).errormsg = checkErrorMsg resp := rfl

@[simp] lemma checkError_verbose : (checkError st resp).verbose = st.verbose := rfl

@[simp] lemma checkError_credits : (checkError st resp).credits = st.credits := rfl

@[simp] lemma checkError_response : (checkError st resp).response = st.response := rfl

@[simp] lemma stateUpdate_verbose : (stateUpdate st resp).verbose = st.verbose := rfl

@[simp] lemma stateUpdate_errorcode : (stateUpdate st resp).errorcode = postErrorcode resp := rfl

@[simp] lemma stateUpdate_errormsg : (stateUpdate st resp).errormsg = postErrormsg resp := rfl

@[simp] lemma stateUpdate_response : (stateUpdate st resp).response = resp := rfl

@[simp] lemma stateUpdate_credits : (stateUpdate st resp).credits = st.credits := rfl

@[simp] lemma timeoutState_errorcode : (timeoutState st).errorcode = 601 := rfl

@[simp] lemma timeoutState_errormsg : (timeoutState st).errormsg = some "ERROR_INTERNAL_TIMEOUT" := rfl

end ProjectionLemmas

/-- With verbose off and a convertible credits value, the credits
bookkeeping of getresult neither raises nor changes the state. -/
lemma updateCredits_eq_of_not_verbose (st : Py9kwState) (c : JVal)
    (hv : st.verbose = false)
    (hwf : (match c with | JVal.jstr s => (pyIntOfString s).isSome | _ => true) = true) :
    updateCredits st c = some st := by
  cases c with
  | jstr s =>
    rcases Option.isSome_iff_exists.mp hwf with ⟨n, hn⟩
    simp [updateCredits, JVal.pyEqInt, JVal.pyEq, hn, hv]
  | jnull => simp [updateCredits, JVal.pyEqInt, JVal.pyEq, hv]
  | jbool b => simp [updateCredits, JVal.pyEqInt, JVal.pyEq, hv]
  | jint n =>
    by_cases h : n = -1
    · simp [updateCredits, JVal.pyEqInt, JVal.pyEq, h]
    · simp [updateCredits, JVal.pyEqInt, JVal.pyEq, h, hv]

/-- Full characterization of a non-verbose getresult call on a response
with well-formed credits: it does not raise, returns fetchedAnswer, and
moves the state to stateUpdate. -/
theorem getresult_char (st : Py9kwState) (resp : Response)
    (hv : st.verbose = false) (hwf : wfCredits resp = true) :
    getresult st resp = ⟨false, fetchedAnswer resp, stateUpdate st resp⟩ := by
  have h1 : updateCredits (checkError { st with response := resp } resp)
      (resp.credits.getD (JVal.jint (-1))) =
      some (checkError { st with response := resp } resp) := by
    apply updateCredits_eq_of_not_verbose
    · simpa using hv
    · exact hwf
  simp only [checkError] at h1
  by_cases h2 : (resp.nodata.getD (JVal.jint (-1))).pyEqInt 1 = true
  · simp [getresult, h1, fetchedAnswer, postErrorcode, postErrormsg, stateUpdate,
      checkError, h2]
  · by_cases h3 : resp.answer = some "ERROR NO USER"
    · simp [getresult, h1, fetchedAnswer, postErrorcode, postErrormsg, stateUpdate,
        checkError, h2, h3]
    · by_cases h4 : checkErrorCode resp > -1
      · simp [getresult, h1, fetchedAnswer, postErrorcode, postErrormsg, stateUpdate,
          checkError, h2, h3, h4]
      · simp [getresult, h1, fetchedAnswer, postErrorcode, postErrormsg, stateUpdate,
          checkError, h2, h3, h4]

/-- The refusal test of the amended specification coincides with the
defaulting try-again test that the code performs. -/
lemma specRefused_true_eq (resp : Response) :
    specRefused true resp = (resp.try_again.getD (JVal.jbool false)).pyEqInt 0 := by
  cases h : resp.try_again <;> simp [specRefused, h, JVal.pyEqInt, JVal.pyEq]

/-- With no budget left the loop exits at once with the timeout state. -/
lemma pollLoop_left_zero (fetches : Nat → Response) (w fuel : Nat)
    (st : Py9kwState) (i t s : Nat) :
    pollLoop fetches w fuel st 0 i t s = ⟨false, none, timeoutState st, i, t, s⟩ := by
  cases fuel <;> simp [pollLoop]

/-- The fetch counter of the loop never decreases below its start value. -/
lemma le_pollLoop_fetchCount (fetches : Nat → Response) (w : Nat) :
    ∀ fuel st left i t s, i ≤ (pollLoop fetches w fuel st left i t s).fetchCount := by
  intro fuel
  induction fuel with
  | zero => intro st left i t s; simp [pollLoop]
  | succ fuel ih =>
    intro st left i t s
    simp only [pollLoop]
    by_cases hl : left > 0
    · simp only [hl, if_true]
      split
      · simp
      · split
        · simp
        · split
          · simp
          · split
            · simp
            · exact Nat.le_trans (Nat.le_succ i) (ih _ _ _ _ _)
    · simp [hl]

/-- With budget and fuel both positive the loop issues at least one fetch
before any exit, on every control path. -/
lemma pollLoop_fetchCount_pos (fetches : Nat → Response) (w fuel : Nat)
    (st : Py9kwState) (left i t s : Nat) (hl : 0 < left) (hf : 0 < fuel) :
    i + 1 ≤ (pollLoop fetches w fuel st left i t s).fetchCount := by
  cases fuel with
  | zero => omega
  | succ fuel =>
    simp only [pollLoop, hl, if_true]
    split
    · simp
    · split
      · simp
      · split
        · simp
        · split
          · simp
          · exact le_pollLoop_fetchCount fetches w fuel _ _ _ _ _

/-- One step of the ceiling-division iteration count: a positive budget
takes one iteration of length min w left plus the iterations of the rest. -/
lemma ceilDiv_step (w left : Nat) (hw : 0 < w) (hl : 0 < left) :
    (left + w - 1) / w = ((left - min w left) + w - 1) / w + 1 := by
  rcases Nat.le_total w left with h | h
  · have hmin : min w left = w := Nat.min_eq_left h
    rw [hmin]
    have h2 : left - w + w - 1 = left - 1 := by omega
    rw [h2]
    have h1 : left + w - 1 = (left - 1) + w := by omega
    rw [h1, Nat.add_div_right _ hw]
  · have hmin : min w left = left := Nat.min_eq_right h
    rw [hmin]
    have h2 : left - left + w - 1 = w - 1 := by omega
    rw [h2, Nat.div_eq_of_lt (by omega : w - 1 < w)]
    have h3 : left + w - 1 = (left - 1) + w := by omega
    rw [h3, Nat.add_div_right _ hw, Nat.div_eq_of_lt (by omega : left - 1 < w)]

section StepLemmas

variable (fetches : Nat → Response) (w fuel : Nat) (st : Py9kwState)
  (left i t s : Nat)

/-- One loop iteration that obtains an answer returns it at once, with no
further sleep. -/
lemma pollLoop_step_solved (hl : 0 < left) (hv : st.verbose = false)
    (hwf : wfCredits (fetches i) = true) (a : String)
    (hans : fetchedAnswer (fetches i) = some a) :
    pollLoop fetches w (fuel + 1) st left i t s =
      ⟨false, some a, stateUpdate st (fetches i), i + 1, t, s⟩ := by
  simp only [pollLoop, hl, if_true]
  rw [getresult_char st (fetches i) hv hwf]
  simp [hans]

/-- One loop iteration that records a structured error other than 602
breaks out of the loop. -/
lemma pollLoop_step_break_error (hl : 0 < left) (hv : st.verbose = false)
    (hwf : wfCredits (fetches i) = true)
    (hans : fetchedAnswer (fetches i) = none)
    (herr : postErrorcode (fetches i) > -1 ∧ postErrorcode (fetches i) ≠ 602) :
    pollLoop fetches w (fuel + 1) st left i t s =
      ⟨false, none, timeoutState (stateUpdate st (fetches i)), i + 1, t, s⟩ := by
  simp only [pollLoop, hl, if_true]
  rw [getresult_char st (fetches i) hv hwf]
  simp [hans, herr]

/-- One loop iteration whose try-again hint compares equal to 0 (a missing
hint defaults to False and does so as well) breaks out of the loop. -/
lemma pollLoop_step_break_refuse (hl : 0 < left) (hv : st.verbose = false)
    (hwf : wfCredits (fetches i) = true)
    (hans : fetchedAnswer (fetches i) = none)
    (herr : ¬(postErrorcode (fetches i) > -1 ∧ postErrorcode (fetches i) ≠ 602))
    (href : ((fetches i).try_again.getD (JVal.jbool false)).pyEqInt 0 = true) :
    pollLoop fetches w (fuel + 1) st left i t s =
      ⟨false, none, timeoutState (stateUpdate st (fetches i)), i + 1, t, s⟩ := by
  simp only [pollLoop, hl, if_true]
  rw [getresult_char st (fetches i) hv hwf]
  simp [hans, herr, href]

/-- One loop iteration with no answer, no breaking error and a truthy
try-again hint sleeps min(interval, remaining) and continues. -/
lemma pollLoop_step_continue (hl : 0 < left) (hv : st.verbose = false)
    (hwf : wfCredits (fetches i) = true)
    (hans : fetchedAnswer (fetches i) = none)
    (herr : ¬(postErrorcode (fetches i) > -1 ∧ postErrorcode (fetches i) ≠ 602))
    (href : ((fetches i).try_again.getD (JVal.jbool false)).pyEqInt 0 = false) :
    pollLoop fetches w (fuel + 1) st left i t s =
      pollLoop fetches w fuel (stateUpdate st (fetches i)) (left - min w left)
        (i + 1) (t + min w left) (s + 1) := by
  simp only [pollLoop, hl, if_true]
  rw [getresult_char st (fetches i) hv hwf]
  simp [hans, herr, href]

end StepLemmas

/-- A run in which every fetch is the transient no-answer-yet case performs
ceil(budget / interval) full fetch-and-sleep cycles, consumes the whole
budget, and ends in the internal-timeout error state with no answer. -/
lemma pollLoop_transient (fetches : Nat → Response) (w : Nat) (hw : 0 < w)
    (htr : ∀ n, transientNoAnswer (fetches n) = true) :
    ∀ left fuel st i t s, left ≤ fuel → st.verbose = false →
      (pollLoop fetches w fuel st left i t s).raised = false ∧
      (pollLoop fetches w fuel st left i t s).answer = none ∧
      (pollLoop fetches w fuel st left i t s).fetchCount = i + (left + w - 1) / w ∧
      (pollLoop fetches w fuel st left i t s).totalSlept = t + left ∧
      (pollLoop fetches w fuel st left i t s).sleepCount = s + (left + w - 1) / w ∧
      (pollLoop fetches w fuel st left i t s).st.errorcode = 601 ∧
      (pollLoop fetches w fuel st left i t s).st.errormsg = some "ERROR_INTERNAL_TIMEOUT" := by
  intro left
  induction left using Nat.strong_induction_on with
  | _ left ih =>
    intro fuel st i t s hfuel hv
    rcases Nat.eq_zero_or_pos left with h0 | hpos
    · subst h0
      rw [pollLoop_left_zero]
      have hz : (w - 1) / w = 0 := Nat.div_eq_of_lt (by omega)
      simp [hz]
    · cases fuel with
      | zero => omega
      | succ fuel =>
        have htri := htr i
        simp only [transientNoAnswer, Bool.and_eq_true, beq_iff_eq,
          Bool.not_eq_true', Option.isNone_iff_eq_none] at htri
        obtain ⟨⟨⟨hwf, hans⟩, herr2⟩, hnotref⟩ := htri
        have herr : ¬(postErrorcode (fetches i) > -1 ∧ postErrorcode (fetches i) ≠ 602) := by
          simp [herr2]
        rw [pollLoop_step_continue fetches w fuel st left i t s hpos hv hwf hans herr hnotref]
        have hm1 : 1 ≤ min w left := Nat.le_min.mpr ⟨hw, hpos⟩
        have hmle : min w left ≤ left := Nat.min_le_right w left
        have IH := ih (left - min w left) (by omega) fuel (stateUpdate st (fetches i))
          (i + 1) (t + min w left) (s + 1) (by omega) (by simp [hv])
        obtain ⟨A, B, C, D, E, F, G⟩ := IH
        have hstep := ceilDiv_step w left hw hpos
        refine ⟨A, B, ?_, ?_, ?_, F, G⟩
        · rw [C]; omega
        · rw [D]; omega
        · rw [E]; omega

/-- The poll loop is observationally equal to the specification scan in
which a missing try-again hint refuses (the amended reading): same answer,
same number of fetches, same seconds slept. -/
lemma pollLoop_spec (fetches : Nat → Response) (w : Nat)
    (hwf : ∀ n, wfCredits (fetches n) = true) :
    ∀ fuel st left i t s, st.verbose = false →
      (pollLoop fetches w fuel st left i t s).spec =
        specPoll true fetches w fuel left i t := by
  intro fuel
  induction fuel with
  | zero => intro st left i t s hv; simp [pollLoop, specPoll, PollOutcome.spec]
  | succ fuel ih =>
    intro st left i t s hv
    rcases Nat.eq_zero_or_pos left with h0 | hpos
    · subst h0; simp [pollLoop, specPoll, PollOutcome.spec]
    · cases hans : fetchedAnswer (fetches i) with
      | some a =>
        rw [pollLoop_step_solved fetches w fuel st left i t s hpos hv (hwf i) a hans]
        simp [PollOutcome.spec, specPoll, hpos, hans]
      | none =>
        by_cases herr : postErrorcode (fetches i) > -1 ∧ postErrorcode (fetches i) ≠ 602
        · rw [pollLoop_step_break_error fetches w fuel st left i t s hpos hv (hwf i) hans herr]
          simp [PollOutcome.spec, specPoll, hpos, hans, herr]
        · by_cases href : ((fetches i).try_again.getD (JVal.jbool false)).pyEqInt 0 = true
          · rw [pollLoop_step_break_refuse fetches w fuel st left i t s hpos hv (hwf i) hans herr href]
            have hsr : specRefused true (fetches i) = true := by
              rw [specRefused_true_eq]; exact href
            simp [PollOutcome.spec, specPoll, hpos, hans, herr, hsr]
          · have href2 : ((fetches i).try_again.getD (JVal.jbool false)).pyEqInt 0 = false :=
              Bool.not_eq_true _ ▸ Bool.of_not_eq_true href
            rw [pollLoop_step_continue fetches w fuel st left i t s hpos hv (hwf i) hans herr href2]
            have hsr : specRefused true (fetches i) = false := by
              rw [specRefused_true_eq]; exact href2
            rw [ih _ _ _ _ _ (by simp [hv])]
            simp [specPoll, hpos, hans, herr, hsr]

/-- The effective timeout is at least the lower clamp bound. -/
lemma getTimeout_ge (st : Py9kwState) : PARAM_MIN_MAXTIMEOUT ≤ getTimeout st := by
  unfold getTimeout PARAM_MIN_MAXTIMEOUT PARAM_MAX_MAXTIMEOUT
  split
  · omega
  · split <;> omega

/-- The initial loop budget is positive (in fact at least 60 seconds). -/
lemma budget_pos (st : Py9kwState) : 0 < (getTimeout st).toNat := by
  have h := getTimeout_ge st
  unfold PARAM_MIN_MAXTIMEOUT at h
  omega

/-- Test fixture: a freshly constructed session (verbose off, priority
unset, timeout 60, poll interval 10, captchaid sentinel -1). -/
def stBase : Py9kwState := initState "apikey"

/-- Test fixture: the canonical transient no-answer-yet response. -/
def respTransient : Response :=
  { nodata := some (JVal.jint 1), try_again := some (JVal.jint 1) }

/-- A structured error is always recorded with a code above the no-error
sentinel. -/
lemma checkErrorCode_pos (resp : Response) (e : String)
    (he : resp.error = some e) : -1 < checkErrorCode resp := by
  unfold checkErrorCode
  rw [he]
  cases h : parseErrorString e with
  | none => simp [h]
  | some p =>
    simp only [h]
    have := Int.natCast_nonneg p.1
    omega

/-- C7: for every priority value p the per-captcha cost equals
10 + max(p, 0) when p is at most 20, and 30 when p exceeds 20 (the
priority is silently clamped to 20). -/
theorem C7_captcha_cost (st : Py9kwState) :
    getCaptchaCost st = if st.prio > 20 then 30 else 10 + max st.prio 0 := by
  simp only [getCaptchaCost, getPrio, PARAM_MAX_PRIO,
    PARAM_MIN_CREDITS_TO_SOLVE_ONE_CAPTCHA]
  rcases le_total st.prio 0 with h | h
  · rw [max_eq_right h]
    split_ifs <;> omega
  · rw [max_eq_left h]
    split_ifs <;> omega

/-- C6: a credits-query response without an error field and with the
credits value given as the string 42 leads getcredits to cache and return
the raw string, not the integer 42 (the claimed integer conversion does
not happen in getcredits, unlike in getresult). -/
theorem C6_getcredits_caches_string :
    (getcredits stBase { credits := some (JVal.jstr "42") }).st.credits = JVal.jstr "42" ∧
    (getcredits stBase { credits := some (JVal.jstr "42") }).retval = JVal.jstr "42" ∧
    (getcredits stBase { credits := some (JVal.jstr "42") }).st.credits ≠ JVal.jint 42 ∧
    (getcredits stBase { credits := some (JVal.jstr "42") }).raised = false := by
  decide

/-- C3: a response carrying credits 5 (different from the cached -1) does
not update the cached credits when verbose is off, because the update
statement sits inside the verbose-only branch; the same call with verbose
on does update it. This refutes the claim that the update happens
regardless of the verbose flag. -/
theorem C3_credits_update_requires_verbose :
    (getresult stBase { credits := some (JVal.jint 5) }).st.credits = JVal.jint (-1) ∧
    (getresult stBase { credits := some (JVal.jint 5) }).raised = false ∧
    (getresult { stBase with verbose := true } { credits := some (JVal.jint 5) }).st.credits = JVal.jint 5 := by
  decide

/-- C2 counterexample: a response carrying both a definitive answer and a
structured error yields no answer from getresult; the error wins, contrary
to the claim that the answer takes precedence. -/
theorem C2_answer_precedence_counterexample :
    (getresult stBase { answer := some "abc", error := some "0008 ERROR" }).answer = none ∧
    (getresult stBase { answer := some "abc", error := some "0008 ERROR" }).answer ≠ some "abc" := by
  decide

/-- C2 amended: for a response whose answer is present, non-empty and not
the ERROR NO USER sentinel, the answer is returned exactly when the
response carries no error field and no nodata equal 1 flag; when either is
present, the error or nodata classification takes precedence and no answer
is returned. -/
theorem C2_answer_precedence_amended (st : Py9kwState) (resp : Response) (a : String)
    (hv : st.verbose = false) (hwf : wfCredits resp = true)
    (hans : resp.answer = some a) (hsent : a ≠ "ERROR NO USER") (hne : a ≠ "") :
    (resp.error = none ∧ (resp.nodata.getD (JVal.jint (-1))).pyEqInt 1 = false →
      (getresult st resp).answer = some a) ∧
    (resp.error ≠ none ∨ (resp.nodata.getD (JVal.jint (-1))).pyEqInt 1 = true →
      (getresult st resp).answer = none) := by
  rw [getresult_char st resp hv hwf]
  constructor
  · rintro ⟨he, hnd⟩
    simp [fetchedAnswer, hnd, hans, hsent, checkErrorCode, he]
  · intro h
    rcases h with he | hnd
    · rcases Option.ne_none_iff_exists.mp he with ⟨e, he2⟩
      have hpos := checkErrorCode_pos resp e he2.symm
      by_cases hnd2 : (resp.nodata.getD (JVal.jint (-1))).pyEqInt 1 = true
      · simp [fetchedAnswer, hnd2]
      · simp [fetchedAnswer, hnd2, hans, hsent, hpos]
    · simp [fetchedAnswer, hnd]

/-- C2 witness: a plain answer with no error is returned; the same answer
with an error field attached is suppressed. -/
theorem C2_answer_precedence_witness :
    (getresult stBase { answer := some "ok" }).answer = some "ok" ∧
    (getresult stBase { answer := some "ok", error := some "0008 X" }).answer = none := by
  constructor
  · exact (C2_answer_precedence_amended stBase { answer := some "ok" } "ok"
      rfl (by decide) rfl (by decide) (by decide)).1 ⟨rfl, by decide⟩
  · exact (C2_answer_precedence_amended stBase { answer := some "ok", error := some "0008 X" } "ok"
      rfl (by decide) rfl (by decide) (by decide)).2 (Or.inl (by decide))

/-- C1 counterexample: on a stream of responses carrying no try-again hint
at all (and no answer and no error), the loop stops after the very first
fetch with nothing slept, while the literal reading of the claim (only an
explicitly false or zero hint refuses) prescribes polling on to the
timeout after 6 fetches; so the claim as stated does not hold. -/
theorem C1_poll_priority_counterexample :
    (sleepAndGetResult stBase (fun _ => {})).spec ≠
      specPoll false (fun _ => {}) (getWaitSecondsPerLoop stBase)
        ((getTimeout stBase).toNat) ((getTimeout stBase).toNat) 0 0 ∧
    (sleepAndGetResult stBase (fun _ => {})).fetchCount = 1 ∧
    (sleepAndGetResult stBase (fun _ => {})).totalSlept = 0 ∧
    (specPoll false (fun _ => {}) (getWaitSecondsPerLoop stBase)
        ((getTimeout stBase).toNat) ((getTimeout stBase).toNat) 0 0).fetchCount = 6 := by
  decide

/-- C1 amended: for every session with verbose off and every sequence of
fetch results whose credits fields cannot make int() raise, the loop
stops on the first fetch that yields an answer, else on the first fetch
recording a structured error other than 602, else on the first response
whose try-again hint compares equal to 0 -- where a missing hint defaults
to false and therefore also stops -- else when the cumulative slept time
reaches the timeout budget, in that priority order: the observable
outcome equals the specification scan with that amended refusal rule. -/
theorem C1_poll_priority_amended (st : Py9kwState) (fetches : Nat → Response)
    (hv : st.verbose = false) (hwf : ∀ n, wfCredits (fetches n) = true) :
    (sleepAndGetResult st fetches).spec =
      specPoll true fetches (getWaitSecondsPerLoop st) ((getTimeout st).toNat)
        ((getTimeout st).toNat) 0 0 := by
  simp only [sleepAndGetResult]
  exact pollLoop_spec fetches _ hwf _ st _ 0 0 0 hv

/-- C1 witness: the amended equivalence applied to a fresh session and the
all-transient response stream. -/
theorem C1_poll_priority_witness :
    (sleepAndGetResult stBase (fun _ => respTransient)).spec =
      specPoll true (fun _ => respTransient) (getWaitSecondsPerLoop stBase)
        ((getTimeout stBase).toNat) ((getTimeout stBase).toNat) 0 0 :=
  C1_poll_priority_amended stBase (fun _ => respTransient) rfl
    (fun n => (by decide : wfCredits respTransient = true))

/-- C4 counterexample: entering sleepAndGetResult with the captchaid
sentinel -1 does issue a result fetch to the remote service (here exactly
one), refuting the claim that no network call is performed. -/
theorem C4_no_network_call_counterexample :
    stBase.captchaid = -1 ∧
    (sleepAndGetResult stBase (fun _ => {})).fetchCount = 1 := by
  decide

/-- C4 amended: entering the poll operation with captchaid -1 only prints
a warning; polling proceeds normally and at least one result fetch is
issued to the remote service. -/
theorem C4_polling_proceeds_without_id (st : Py9kwState) (fetches : Nat → Response)
    (h : st.captchaid = -1) :
    1 ≤ (sleepAndGetResult st fetches).fetchCount := by
  have hb := budget_pos st
  simp only [sleepAndGetResult]
  exact pollLoop_fetchCount_pos fetches (getWaitSecondsPerLoop st)
    ((getTimeout st).toNat) st ((getTimeout st).toNat) 0 0 0 hb hb

/-- C4 witness: the amended statement applied to a fresh session, whose
captchaid is the -1 sentinel. -/
theorem C4_polling_proceeds_without_id_witness :
    1 ≤ (sleepAndGetResult stBase (fun _ => {})).fetchCount :=
  C4_polling_proceeds_without_id stBase (fun _ => {}) rfl

/-- C5: with timeout budget 60 and poll interval 10, if every fetch
classifies as the transient no-answer-yet case (errorcode 602 with a
truthy try-again hint), the loop performs exactly 6 fetch-and-sleep
cycles, sleeps 60 seconds in total, and returns no answer with errorcode
601 and message ERROR_INTERNAL_TIMEOUT. -/
theorem C5_timeout_six_cycles (st : Py9kwState) (fetches : Nat → Response)
    (hmt : st.maxtimeout = 60) (hwl : st.waitSecondsPerLoop = 10)
    (hv : st.verbose = false)
    (htr : ∀ n, transientNoAnswer (fetches n) = true) :
    (sleepAndGetResult st fetches).raised = false ∧
    (sleepAndGetResult st fetches).answer = none ∧
    (sleepAndGetResult st fetches).fetchCount = 6 ∧
    (sleepAndGetResult st fetches).totalSlept = 60 ∧
    (sleepAndGetResult st fetches).sleepCount = 6 ∧
    (sleepAndGetResult st fetches).st.errorcode = 601 ∧
    (sleepAndGetResult st fetches).st.errormsg = some "ERROR_INTERNAL_TIMEOUT" := by
  have hT : getTimeout st = 60 := by
    unfold getTimeout PARAM_MIN_MAXTIMEOUT PARAM_MAX_MAXTIMEOUT
    rw [hmt]
    norm_num
  have hW : getWaitSecondsPerLoop st = 10 := by
    unfold getWaitSecondsPerLoop
    rw [hwl]
    decide
  simp only [sleepAndGetResult, hT, hW]
  have h60 : ((60 : Int)).toNat = 60 := rfl
  rw [h60]
  have h := pollLoop_transient fetches 10 (by norm_num) htr 60 60 st 0 0 0
    (le_refl 60) hv
  have hdiv : (60 + 10 - 1) / 10 = 6 := by norm_num
  rw [hdiv] at h
  simpa using h

/-- C5 witness: the scenario applied to a fresh session (timeout 60,
interval 10) and the all-transient response stream. -/
theorem C5_timeout_six_cycles_witness :
    (sleepAndGetResult stBase (fun _ => respTransient)).fetchCount = 6 ∧
    (sleepAndGetResult stBase (fun _ => respTransient)).sleepCount = 6 ∧
    (sleepAndGetResult stBase (fun _ => respTransient)).answer = none ∧
    (sleepAndGetResult stBase (fun _ => respTransient)).st.errorcode = 601 := by
  have h := C5_timeout_six_cycles stBase (fun _ => respTransient) rfl rfl rfl
    (fun n => (by decide : transientNoAnswer respTransient = true))
  exact ⟨h.2.2.1, h.2.2.2.2.1, h.2.1, h.2.2.2.2.2.1⟩

/-- C8: sendCaptchaFeedback never lets an exception escape; with a
non-positive captchaid (such as the -1 sentinel) it returns False without
issuing the network request, and when the network call or the response
parse raises, the exception is caught and False is returned. -/
theorem C8_feedback_never_raises (st : Py9kwState) (n : Int) (net : Option Response) :
    (sendCaptchaFeedback st n net).raised = false ∧
    (st.captchaid ≤ 0 →
      (sendCaptchaFeedback st n net).networkCalled = false ∧
      (sendCaptchaFeedback st n net).result = false) ∧
    (net = none → (sendCaptchaFeedback st n net).result = false) := by
  by_cases h : st.captchaid ≤ 0 <;> cases net <;> simp [sendCaptchaFeedback, h]

/-- C8 witness: a fresh session still has the -1 sentinel, so feedback is
refused locally, and a raising network call also yields False. -/
theorem C8_feedback_never_raises_witness :
    (sendCaptchaFeedback stBase 3 none).raised = false ∧
    (sendCaptchaFeedback stBase 3 none).networkCalled = false ∧
    (sendCaptchaFeedback stBase 3 none).result = false ∧
    (sendCaptchaFeedback { stBase with captchaid := 7 } 3 none).result = false := by
  have h1 := C8_feedback_never_raises stBase 3 none
  have h2 := C8_feedback_never_raises { stBase with captchaid := 7 } 3 none
  exact ⟨h1.1, (h1.2.1 (by decide)).1, (h1.2.1 (by decide)).2, h2.2.2 rfl⟩

/-- C9: when a fetch stores a response with no try_again field at all (and
yields no answer and records no error other than the transient 602), the
loop stops immediately after that fetch with no sleep and returns no
result, because the missing hint defaults to False, which compares equal
to 0 and so counts as a refusal. -/
theorem C9_missing_try_again_stops (st : Py9kwState) (fetches : Nat → Response)
    (hv : st.verbose = false) (hwf : wfCredits (fetches 0) = true)
    (hta : (fetches 0).try_again = none)
    (hans : fetchedAnswer (fetches 0) = none)
    (herr : postErrorcode (fetches 0) = -1 ∨ postErrorcode (fetches 0) = 602) :
    (sleepAndGetResult st fetches).answer = none ∧
    (sleepAndGetResult st fetches).fetchCount = 1 ∧
    (sleepAndGetResult st fetches).sleepCount = 0 ∧
    (sleepAndGetResult st fetches).totalSlept = 0 := by
  have hb := budget_pos st
  simp only [sleepAndGetResult]
  obtain ⟨k, hk⟩ : ∃ k, (getTimeout st).toNat = k + 1 :=
    ⟨(getTimeout st).toNat - 1, by omega⟩
  rw [hk]
  have herr2 : ¬(postErrorcode (fetches 0) > -1 ∧ postErrorcode (fetches 0) ≠ 602) := by
    rcases herr with h | h <;> simp [h]
  have href : (((fetches 0).try_again.getD (JVal.jbool false))).pyEqInt 0 = true := by
    rw [hta]
    decide
  rw [pollLoop_step_break_refuse fetches _ k st (k + 1) 0 0 0 (by omega) hv hwf hans herr2 href]
  simp

/-- C9 witness: the empty response (no fields at all) stops the loop after
one fetch. -/
theorem C9_missing_try_again_stops_witness :
    (sleepAndGetResult stBase (fun _ => {})).answer = none ∧
    (sleepAndGetResult stBase (fun _ => {})).fetchCount = 1 ∧
    (sleepAndGetResult stBase (fun _ => {})).totalSlept = 0 := by
  have h := C9_missing_try_again_stops stBase (fun _ => {}) rfl
    (by decide : wfCredits {} = true) rfl
    (by decide : fetchedAnswer {} = none)
    (Or.inl (by decide : postErrorcode {} = -1))
  exact ⟨h.1, h.2.1, h.2.2.2⟩

/-- C10: a response with answer equal to the empty string, no error field
and no nodata flag makes getresult return the empty string, and
sleepAndGetResult treats that non-None return as solved, returning it
immediately after the first fetch with no sleep: neither level checks the
answer for non-emptiness. -/
theorem C10_empty_answer_returned (st : Py9kwState) (fetches : Nat → Response)
    (hv : st.verbose = false)
    (hans : (fetches 0).answer = some "")
    (herr : (fetches 0).error = none)
    (hnd : (fetches 0).nodata = none)
    (hwf : wfCredits (fetches 0) = true) :
    (getresult st (fetches 0)).answer = some "" ∧
    (sleepAndGetResult st fetches).answer = some "" ∧
    (sleepAndGetResult st fetches).fetchCount = 1 ∧
    (sleepAndGetResult st fetches).totalSlept = 0 := by
  have hfa : fetchedAnswer (fetches 0) = some "" := by
    unfold fetchedAnswer checkErrorCode
    rw [hans, herr, hnd]
    decide
  refine ⟨?_, ?_⟩
  · rw [getresult_char st (fetches 0) hv hwf]
    simpa using hfa
  · have hb := budget_pos st
    simp only [sleepAndGetResult]
    obtain ⟨k, hk⟩ : ∃ k, (getTimeout st).toNat = k + 1 :=
      ⟨(getTimeout st).toNat - 1, by omega⟩
    rw [hk]
    rw [pollLoop_step_solved fetches _ k st (k + 1) 0 0 0 (by omega) hv hwf "" hfa]
    simp

/-- C10 witness: the theorem applied to the response that only carries the
empty answer string. -/
theorem C10_empty_answer_returned_witness :
    (getresult stBase { answer := some "" }).answer = some "" ∧
    (sleepAndGetResult stBase (fun _ => ({ answer := some "" } : Response))).answer = some "" := by
  have h := C10_empty_answer_returned stBase (fun _ => ({ answer := some "" } : Response))
    rfl rfl rfl rfl (by decide : wfCredits { answer := some "" } = true)
  exact ⟨h.1, h.2.1⟩
